import Mathlib

/-!
Verification development for the encounter/combat simulation core of the
brainrot-bosses browser game.  The TypeScript source is embedded shallowly:

* JavaScript numbers are modelled as exact rationals (`ℚ`); all the arithmetic
  the embedded code performs on them (+, -, *, /) is embedded operation by
  operation.  `Math.sqrt`, `Math.cos` and `Math.sin` have no exact rational
  counterpart, so they are passed in as explicit function parameters
  (`sqrtQ`, `cosQ`, `sinQ`); properties that depend on their values take the
  needed facts (such as `sqrtQ 0 = 0`) as hypotheses.
* `Math.random()` draws and `Date.now()` reads are passed in explicitly
  (`Rands`, `now`), matching the single-threaded frame model of the source.
* Methods mutating `this` become state-passing functions on structures.
* External collaborators whose sources are not part of the core (the `Enemy`
  base class, the enemy-type stat tables, the pool and the character manager)
  are abstracted as function parameters bundled in `Externals`.
-/

namespace Brainrot

/-- 2D vector value type, from `Vector2` (`{x, y}` over JS numbers). -/
structure Vec2 where
  x : ℚ
  y : ℚ
deriving DecidableEq, Repr

/-- Squared Euclidean norm of a vector.  The source's `magnitude()` is
`Math.sqrt` of this quantity; comparisons of magnitudes of the form
`|v| < c` with `c ≥ 0` are equivalent to `normSq v < c^2`. -/
def normSq (v : Vec2) : ℚ := v.x * v.x + v.y * v.y

/-- Squared distance between two points; `Vector2.distance` is `Math.sqrt`
of this quantity. -/
def dist2 (a b : Vec2) : ℚ := (a.x - b.x) * (a.x - b.x) + (a.y - b.y) * (a.y - b.y)

/-! ## Kickable object physics (`KickableObject.ts`) -/

/-- The four prop types, from `enum ObjectType`. -/
inductive ObjectType where
  | barrel
  | box
  | stone
  | log
deriving DecidableEq, Repr

/-- Per-type static constants, from `interface ObjectConfig` (the visual-only
fields `breakEffect`, `sprite` and `scale` are omitted: they never feed back
into the simulation state). -/
structure ObjectConfig where
  weight : ℚ
  health : ℚ
  damage : ℚ
  knockbackMultiplier : ℚ
  bounceDecay : ℚ
deriving DecidableEq, Repr

/-- The static lookup table `KickableObject.OBJECT_CONFIGS`. -/
def OBJECT_CONFIGS : ObjectType → ObjectConfig
  | .barrel => { weight := 50, health := 30, damage := 40, knockbackMultiplier := 1.5, bounceDecay := 0.85 }
  | .box    => { weight := 20, health := 15, damage := 25, knockbackMultiplier := 1.2, bounceDecay := 0.75 }
  | .stone  => { weight := 80, health := 50, damage := 60, knockbackMultiplier := 2.0, bounceDecay := 0.95 }
  | .log    => { weight := 70, health := 40, damage := 45, knockbackMultiplier := 1.8, bounceDecay := 0.88 }

/-- Runtime state of a kickable prop, from `class KickableObject`.  The
sprite's world position and rotation are kept (`sprite.x`, `sprite.y`,
`sprite.rotation`); the trail ring buffer and other purely visual artefacts
are omitted (the spec lists them as outside simulation correctness). -/
structure KickableObject where
  config : ObjectConfig
  position : Vec2
  rotation : ℚ
  velocity : Vec2
  health : ℚ
  maxHealth : ℚ
  weight : ℚ
  bounceDecay : ℚ
  rotationSpeed : ℚ
  isFlying : Bool
  isBroken : Bool
  breakEffectPlayed : Bool
deriving DecidableEq, Repr

/-- Constructor of `KickableObject`: copy the per-type constants and start
idle and unbroken at the given position. -/
def mkKickableObject (x y : ℚ) (t : ObjectType) : KickableObject :=
  let c := OBJECT_CONFIGS t
  { config := c
    position := ⟨x, y⟩
    rotation := 0
    velocity := ⟨0, 0⟩
    health := c.health
    maxHealth := c.health
    weight := c.weight
    bounceDecay := c.bounceDecay
    rotationSpeed := 0
    isFlying := false
    isBroken := false
    breakEffectPlayed := false }

/-- `KickableObject.applyKick(forceX, forceY, characterKickForce)`.
`rand` is the `Math.random()` draw used for the spin
(`rotationSpeed = (rand - 0.5) * 0.2`).  No-op if broken; otherwise the
velocity is set (not added) to the force scaled by
`(100 / weight) * (characterKickForce / 100)` and the prop starts flying. -/
def applyKick (k : KickableObject) (forceX forceY characterKickForce rand : ℚ) : KickableObject :=
  if k.isBroken then k
  else
    let weightFactor := 100 / k.weight
    let adjustedForceX := forceX * weightFactor * (characterKickForce / 100)
    let adjustedForceY := forceY * weightFactor * (characterKickForce / 100)
    { k with
      velocity := ⟨adjustedForceX, adjustedForceY⟩
      isFlying := true
      rotationSpeed := (rand - 0.5) * 0.2 }

/-- `KickableObject.breakObject()`: transition to Broken exactly once,
clearing velocity and flight (the break visual effect and the
`setVisible(false)/setActive(false)` calls are external rendering). -/
def breakObject (k : KickableObject) : KickableObject :=
  if k.isBroken || k.breakEffectPlayed then k
  else
    { k with
      isBroken := true
      breakEffectPlayed := true
      isFlying := false
      velocity := ⟨0, 0⟩ }

/-- `KickableObject.takeDamage(amount)`: no-op if broken; subtract health and
break at health ≤ 0 (the red-flash overlay is external rendering). -/
def kTakeDamage (k : KickableObject) (amount : ℚ) : KickableObject :=
  if k.isBroken then k
  else
    let k1 := { k with health := k.health - amount }
    if k1.health ≤ 0 then breakObject k1 else k1

/-- Observable outcome of a `hitEnemy` call: the prop's new state, the damage
number returned to the caller, the knockback vector passed to the enemy's
`applyKnockback` (none when the enemy lacks that interface or the early
return fired), and the `impactForce` the body measured (0 when the early
return fired, in which case the source never computes it). -/
structure HitOutcome where
  prop : KickableObject
  damage : ℚ
  knockback : Option Vec2
  impactForce : ℚ
deriving DecidableEq, Repr

/-- `KickableObject.hitEnemy(enemy)`.  `sqrtQ` stands for `Math.sqrt` and
`enemyHasKb` for the truthiness of `enemy.applyKnockback`.  Mirrors the
source order: early return when broken or not flying; self-damage of 5
(which may break the prop and zero its velocity); impact force measured
from the *current* velocity; knockback of half the current velocity;
velocity decay ×0.7; stop flying when the measured impact force was < 50;
return the type's fixed damage constant.  (The local `knockbackForce`
variable of the source is computed but never used, and is dropped.) -/
def hitEnemy (sqrtQ : ℚ → ℚ) (k : KickableObject) (enemyHasKb : Bool) : HitOutcome :=
  if k.isBroken || !k.isFlying then
    { prop := k, damage := 0, knockback := none, impactForce := 0 }
  else
    let k1 := kTakeDamage k 5
    let impactForce := sqrtQ (k1.velocity.x * k1.velocity.x + k1.velocity.y * k1.velocity.y)
    let kb : Option Vec2 :=
      if enemyHasKb then some ⟨k1.velocity.x * 0.5, k1.velocity.y * 0.5⟩ else none
    let k2 := { k1 with velocity := ⟨k1.velocity.x * 0.7, k1.velocity.y * 0.7⟩ }
    let k3 :=
      if impactForce < 50 then { k2 with isFlying := false, velocity := ⟨0, 0⟩ } else k2
    { prop := k3, damage := k.config.damage, knockback := kb, impactForce := impactForce }

/-- `KickableObject.update(deltaTime)`: no-op if broken; while flying,
integrate position, accumulate rotation, decay velocity by `bounceDecay`,
and stop flying below speed 20 (trail rendering omitted). -/
def kUpdate (sqrtQ : ℚ → ℚ) (deltaTime : ℚ) (k : KickableObject) : KickableObject :=
  if k.isBroken then k
  else if k.isFlying then
    let k1 := { k with
      position := ⟨k.position.x + k.velocity.x * deltaTime / 1000,
                   k.position.y + k.velocity.y * deltaTime / 1000⟩
      rotation := k.rotation + k.rotationSpeed }
    let k2 := { k1 with velocity := ⟨k1.velocity.x * k1.bounceDecay, k1.velocity.y * k1.bounceDecay⟩ }
    let speed := sqrtQ (k2.velocity.x * k2.velocity.x + k2.velocity.y * k2.velocity.y)
    if speed < 20 then
      { k2 with isFlying := false, velocity := ⟨0, 0⟩, rotationSpeed := 0 }
    else k2
  else k

/-- `KickableObject.reset()`: back to idle, unbroken, full health. -/
def kReset (k : KickableObject) : KickableObject :=
  { k with
    velocity := ⟨0, 0⟩
    isFlying := false
    isBroken := false
    breakEffectPlayed := false
    rotationSpeed := 0
    rotation := 0
    health := k.maxHealth }

/-- The spec's prop invariant: a broken prop is not flying and has zero
velocity. -/
def propInv (k : KickableObject) : Prop :=
  k.isBroken = true → k.isFlying = false ∧ k.velocity = ⟨0, 0⟩

instance (k : KickableObject) : Decidable (propInv k) := by
  unfold propInv
  infer_instance

/-! ## Aggro state machine (`EncounterSystem.updateEnemyAggro` and friends) -/

/-- From `enum EnemyState`. -/
inductive EnemyState where
  | stationary
  | patrolling
  | aggroed
  | combat
  | fleeing
deriving DecidableEq, Repr

/-- The fields of an enemy placement and its runtime enemy that the aggro
switch of `updateEnemyAggro` reads or writes: the placement's `state` and
`patrolPath`, and the runtime enemy's `hasAggro` and `movementType`
annotations.  (Patrol position stepping acts on other fields and is embedded
separately in `updatePatrol`.) -/
structure AggroFields where
  state : EnemyState
  hasAggro : Bool
  patrolPath : Option (List Vec2)
  movementType : String
deriving DecidableEq, Repr

/-- `EncounterSystem.triggerAggro`: mark aggro, enter `AGGROED`, switch the
enemy to homing movement (the red tint and the log line are external). -/
def triggerAggro (a : AggroFields) : AggroFields :=
  { a with hasAggro := true, state := .aggroed, movementType := "homing" }

/-- `EncounterSystem.loseAggro`: clear the aggro flag and revert to
`PATROLLING` when a patrol path exists (note: in the source the check is JS
truthiness of `config.patrolPath`, so even an empty array counts as a path),
else to `STATIONARY` (tint clearing and logging are external). -/
def loseAggro (a : AggroFields) : AggroFields :=
  let a1 := { a with hasAggro := false }
  if a1.patrolPath.isSome then
    { a1 with state := .patrolling, movementType := "patrol" }
  else
    { a1 with state := .stationary, movementType := "stationary" }

/-- The state-transition switch of `EncounterSystem.updateEnemyAggro`,
branching on the placement state with `d` the computed
`Vector2.distance(enemyPos, playerPos)` and `r` the placement's
`aggroRadius`.  `COMBAT` and `FLEEING` have no case in the source switch. -/
def aggroTransition (d r : ℚ) (a : AggroFields) : AggroFields :=
  match a.state with
  | .stationary =>
      if d ≤ r ∧ a.hasAggro = false then triggerAggro a else a
  | .patrolling =>
      if d ≤ r ∧ a.hasAggro = false then triggerAggro a else a
  | .aggroed =>
      if d > r * 1.5 then loseAggro a
      else { a with movementType := "homing" }
  | _ => a

/-! ## Boss state machine (`Boss.ts`) -/

/-- From `interface BossPhase`. -/
structure BossPhase where
  healthThreshold : ℚ
  abilities : List String
  movementPattern : String
deriving DecidableEq, Repr

/-- From `interface BossConfig`. -/
structure BossConfigL where
  type : String
  name : String
  position : Vec2
  health : ℚ
  phases : List BossPhase
  arenaRadius : ℚ
  unlockCharacter : String
deriving DecidableEq, Repr

/-- From `enum BossAttack`; `bossAttackId` gives each member's string value. -/
inductive BossAttack where
  | basicAttack
  | summonSwarm
  | chargeAttack
  | bombBarrage
  | chargeSlam
  | megaBomb
  | iceDash
  | freezeWave
  | megaFreeze
  | tripleDash
deriving DecidableEq, Repr

/-- The string value carried by each `BossAttack` enum member. -/
def bossAttackId : BossAttack → String
  | .basicAttack => "basic_attack"
  | .summonSwarm => "summon_swarm"
  | .chargeAttack => "charge_attack"
  | .bombBarrage => "bomb_barrage"
  | .chargeSlam => "charge_slam"
  | .megaBomb => "mega_bomb"
  | .iceDash => "ice_dash"
  | .freezeWave => "freeze_wave"
  | .megaFreeze => "mega_freeze"
  | .tripleDash => "triple_dash"

/-- Runtime state of a boss, from `class Boss extends Enemy`.  The fields up
to `spriteActive` come from the (external) `Enemy` base: live position,
health, speed, the knockback velocity the charge attacks write, the dying
flag and the sprite-active flag.  The UI graphics objects are omitted. -/
structure BossState where
  config : BossConfigL
  position : Vec2
  health : ℚ
  maxHealth : ℚ
  speed : ℚ
  knockbackVelocity : Vec2
  isDying : Bool
  spriteActive : Bool
  hitboxRadius : ℚ
  currentPhase : ℕ
  lastAttackTime : ℚ
  attackCooldown : ℚ
  arenaCenter : Vec2
  arenaRadius : ℚ
  circleAngle : ℚ
  circleSpeed : ℚ
  chargeTarget : Option Vec2
  isCharging : Bool
  swimDirection : Vec2
  swimTimer : ℚ
deriving DecidableEq, Repr

/-- The `Enemy`-base portion of a boss's state, used to hand the state to the
external `Enemy` collaborator functions (`super.update`, `super.takeDamage`):
they can only read and write these fields, never the boss-only ones. -/
structure EnemyCore where
  position : Vec2
  health : ℚ
  maxHealth : ℚ
  speed : ℚ
  knockbackVelocity : Vec2
  isDying : Bool
  spriteActive : Bool
deriving DecidableEq, Repr

/-- Project the `Enemy`-base fields out of a boss state. -/
def bossCore (b : BossState) : EnemyCore :=
  { position := b.position
    health := b.health
    maxHealth := b.maxHealth
    speed := b.speed
    knockbackVelocity := b.knockbackVelocity
    isDying := b.isDying
    spriteActive := b.spriteActive }

/-- Write the `Enemy`-base fields back into a boss state. -/
def setBossCore (b : BossState) (c : EnemyCore) : BossState :=
  { b with
    position := c.position
    health := c.health
    maxHealth := c.maxHealth
    speed := c.speed
    knockbackVelocity := c.knockbackVelocity
    isDying := c.isDying
    spriteActive := c.spriteActive }

/-- The random draws consumed by one boss tick, one field per `Math.random()`
call site: the two berserker jitter draws, the random swim heading (the
source draws `angle = Math.random() * 2π`; the field carries that angle),
and the attack-selection draw. -/
structure Rands where
  move1 : ℚ
  move2 : ℚ
  swimAngle : ℚ
  attack : ℚ
deriving DecidableEq, Repr

/-- External collaborators and transcendental primitives, bundled so every
embedded operation can be explicit about what it consumes.  `enemyUpdate`
and `enemyTakeDamage` are the `Enemy` base-class methods (out of scope per
the spec, reachable through `super`); `healthOfType`, `speedOfType` and
`movementTypeOf` are the `ENEMY_TYPES` stat table; `unlockByBoss` is
`CharacterManager.unlockCharacterByBoss`. -/
structure Externals where
  sqrtQ : ℚ → ℚ
  cosQ : ℚ → ℚ
  sinQ : ℚ → ℚ
  enemyUpdate : ℚ → Vec2 → EnemyCore → EnemyCore
  enemyTakeDamage : ℚ → EnemyCore → EnemyCore × Bool
  healthOfType : String → ℚ
  speedOfType : String → ℚ
  movementTypeOf : String → String
  unlockByBoss : String → Bool

/-- `Boss.enterNextPhase()`: advance one phase, rewind `lastAttackTime` so an
attack is immediately eligible (`Date.now() - attackCooldown`, with `now`
standing for `Date.now()`), and apply the phase-entry effect keyed on the
new phase's movement pattern (berserker: ×1.5 speed; frenzy: half the
attack cooldown).  The phase-transition visual is external. -/
def enterNextPhase (now : ℚ) (b : BossState) : BossState :=
  let b1 := { b with currentPhase := b.currentPhase + 1 }
  let b2 := { b1 with lastAttackTime := now - b1.attackCooldown }
  match b2.config.phases.get? b2.currentPhase with
  | some p =>
      if p.movementPattern = "berserker" then { b2 with speed := b2.speed * 1.5 }
      else if p.movementPattern = "frenzy" then { b2 with attackCooldown := b2.attackCooldown * 0.5 }
      else b2
  | none => b2

/-- `Boss.checkPhaseTransition()`: when a next phase exists and
`health / maxHealth` has dropped to or below its threshold, advance exactly
one phase.  (The guard `currentPhase < phases.length - 1` of the source is
written `currentPhase + 1 < phases.length`, the same condition over the
integers the source computes with.) -/
def checkPhaseTransition (now : ℚ) (b : BossState) : BossState :=
  if h : b.currentPhase + 1 < b.config.phases.length then
    let nextPhase := b.config.phases.get ⟨b.currentPhase + 1, h⟩
    if b.health / b.maxHealth ≤ nextPhase.healthThreshold then enterNextPhase now b else b
  else b

/-- `Boss.updateCircleMovement`: advance the orbit angle and interpolate
toward the orbit point (radius 100 around the arena center) at 0.7× speed. -/
def updateCircleMovement (E : Externals) (deltaTime : ℚ) (b : BossState) : BossState :=
  let b1 := { b with circleAngle := b.circleAngle + b.circleSpeed * deltaTime / 1000 }
  let targetX := b1.arenaCenter.x + E.cosQ b1.circleAngle * 100
  let targetY := b1.arenaCenter.y + E.sinQ b1.circleAngle * 100
  let dx := targetX - b1.position.x
  let dy := targetY - b1.position.y
  let dist := E.sqrtQ (dx * dx + dy * dy)
  if dist > 5 then
    let moveSpeed := b1.speed * 0.7
    { b1 with position := ⟨b1.position.x + dx / dist * moveSpeed * deltaTime / 1000,
                           b1.position.y + dy / dist * moveSpeed * deltaTime / 1000⟩ }
  else b1

/-- `Boss.updateChaseMovement`: head straight for the player (1.2× speed when
aggressive) but stop within 60 units. -/
def updateChaseMovement (E : Externals) (deltaTime : ℚ) (playerPos : Vec2) (aggressive : Bool)
    (b : BossState) : BossState :=
  let speed := if aggressive then b.speed * 1.2 else b.speed
  let dx := playerPos.x - b.position.x
  let dy := playerPos.y - b.position.y
  let dist := E.sqrtQ (dx * dx + dy * dy)
  if dist > 60 then
    { b with position := ⟨b.position.x + dx / dist * speed * deltaTime / 1000,
                          b.position.y + dy / dist * speed * deltaTime / 1000⟩ }
  else b

/-- `Boss.updateBerserkerMovement`: 1.5× speed chase with ±25-unit random
jitter added to the offset before normalization, stopping within 40 units. -/
def updateBerserkerMovement (E : Externals) (R : Rands) (deltaTime : ℚ) (playerPos : Vec2)
    (b : BossState) : BossState :=
  let speed := b.speed * 1.5
  let dx := playerPos.x - b.position.x
  let dy := playerPos.y - b.position.y
  let dist := E.sqrtQ (dx * dx + dy * dy)
  let randomX := (R.move1 - 0.5) * 50
  let randomY := (R.move2 - 0.5) * 50
  if dist > 40 then
    { b with position := ⟨b.position.x + (dx + randomX) / dist * speed * deltaTime / 1000,
                          b.position.y + (dy + randomY) / dist * speed * deltaTime / 1000⟩ }
  else b

/-- `Boss.updateSwimmingMovement`: refresh the heading every 2000ms (toward
the player when aggressive, else to the randomly drawn angle), then drift
along the heading at 1.1×/0.8× speed. -/
def updateSwimmingMovement (E : Externals) (R : Rands) (deltaTime : ℚ) (playerPos : Vec2)
    (aggressive : Bool) (b : BossState) : BossState :=
  let b1 := { b with swimTimer := b.swimTimer + deltaTime }
  let b2 :=
    if b1.swimTimer > 2000 then
      let b2 :=
        if aggressive then
          let dx := playerPos.x - b1.position.x
          let dy := playerPos.y - b1.position.y
          let dist := E.sqrtQ (dx * dx + dy * dy)
          { b1 with swimDirection := ⟨dx / dist, dy / dist⟩ }
        else
          { b1 with swimDirection := ⟨E.cosQ R.swimAngle, E.sinQ R.swimAngle⟩ }
      { b2 with swimTimer := 0 }
    else b1
  let speed := if aggressive then b2.speed * 1.1 else b2.speed * 0.8
  { b2 with position := ⟨b2.position.x + b2.swimDirection.x * speed * deltaTime / 1000,
                         b2.position.y + b2.swimDirection.y * speed * deltaTime / 1000⟩ }

/-- `Boss.updateFrenzyMovement`: 2× speed toward the player with a sinusoidal
perpendicular zigzag of amplitude 30, oscillating with `Date.now() / 200`. -/
def updateFrenzyMovement (E : Externals) (now : ℚ) (deltaTime : ℚ) (playerPos : Vec2)
    (b : BossState) : BossState :=
  let speed := b.speed * 2
  let time := now / 200
  let dx := playerPos.x - b.position.x
  let dy := playerPos.y - b.position.y
  let dist := E.sqrtQ (dx * dx + dy * dy)
  let perpX := -dy / dist
  let perpY := dx / dist
  let zigzag := E.sinQ time * 30
  { b with position := ⟨b.position.x + (dx / dist + perpX * zigzag) * speed * deltaTime / 1000,
                        b.position.y + (dy / dist + perpY * zigzag) * speed * deltaTime / 1000⟩ }

/-- `Boss.updateBossMovement`: skipped while dying or mid-charge, otherwise
dispatch on the current phase's movement pattern string.  A pattern matching
no case (including the catalog's `aggressive-swim`, which differs from the
enum value `aggressive_swim`) moves nothing; an out-of-range phase index is
unreachable for spawned bosses (the source would fault on it). -/
def updateBossMovement (E : Externals) (R : Rands) (now deltaTime : ℚ) (playerPos : Vec2)
    (b : BossState) : BossState :=
  if b.isDying || b.isCharging then b
  else
    match b.config.phases.get? b.currentPhase with
    | none => b
    | some phase =>
      let pat := phase.movementPattern
      if pat = "stationary" then b
      else if pat = "circle" then updateCircleMovement E deltaTime b
      else if pat = "chase" then updateChaseMovement E deltaTime playerPos false b
      else if pat = "aggressive" then updateChaseMovement E deltaTime playerPos true b
      else if pat = "berserker" then updateBerserkerMovement E R deltaTime playerPos b
      else if pat = "swimming" then updateSwimmingMovement E R deltaTime playerPos false b
      else if pat = "aggressive_swim" then updateSwimmingMovement E R deltaTime playerPos true b
      else if pat = "frenzy" then updateFrenzyMovement E now deltaTime playerPos b
      else b

/-- The synchronous part of `Boss.executeChargeAttack`: snapshot the player
position as the charge target and raise `isCharging`.  The warning line, the
velocity impulse applied after the 1000ms telegraph and the 500ms-later
clearing run through `scene.time.delayedCall` on the external timer and are
outside this synchronous step (spec §5: delayed callbacks are external and
uncancellable). -/
def chargeStart (playerPos : Vec2) (b : BossState) : BossState :=
  { b with chargeTarget := some playerPos, isCharging := true }

/-- `Boss.executeAttack(attack, playerPos)`: the switch compares the incoming
ability string against the `BossAttack` enum values (underscored).  The
second component reports which routine the switch dispatched to, `none` when
no case matched (the source switch has no default, so an unmatched string
does nothing).  `charge_slam` and `ice_dash` call `executeChargeAttack`
synchronously; `triple_dash`, `bomb_barrage`, `mega_bomb` and `mega_freeze`
only schedule delayed external effects; `summon_swarm` and `freeze_wave` are
logging stubs. -/
def executeAttack (attack : String) (playerPos : Vec2) (b : BossState) :
    BossState × Option BossAttack :=
  if attack = bossAttackId .summonSwarm then (b, some .summonSwarm)
  else if attack = bossAttackId .chargeAttack then (chargeStart playerPos b, some .chargeAttack)
  else if attack = bossAttackId .bombBarrage then (b, some .bombBarrage)
  else if attack = bossAttackId .chargeSlam then (chargeStart playerPos b, some .chargeSlam)
  else if attack = bossAttackId .megaBomb then (b, some .megaBomb)
  else if attack = bossAttackId .iceDash then (chargeStart playerPos b, some .iceDash)
  else if attack = bossAttackId .freezeWave then (b, some .freezeWave)
  else if attack = bossAttackId .megaFreeze then (b, some .megaFreeze)
  else if attack = bossAttackId .tripleDash then (b, some .tripleDash)
  else (b, none)

/-- `Boss.updateBossAttacks(deltaTime, playerPos)`: gate on
`now - lastAttackTime < attackCooldown` (`now` stands for `Date.now()`),
no-op when the current phase's ability list is empty, otherwise pick index
`⌊rAttack · length⌋` (`rAttack` is the `Math.random()` draw), execute it and
record `now`.  The second component reports the fired ability name and the
routine it dispatched to, for observation.  An out-of-range phase index is
unreachable for spawned bosses (the source would fault on it). -/
def updateBossAttacks (now rAttack : ℚ) (playerPos : Vec2) (b : BossState) :
    BossState × Option (String × Option BossAttack) :=
  if now - b.lastAttackTime < b.attackCooldown then (b, none)
  else
    match b.config.phases.get? b.currentPhase with
    | none => (b, none)
    | some phase =>
      if phase.abilities.length = 0 then (b, none)
      else
        let idx := (Int.floor (rAttack * phase.abilities.length)).toNat
        let attackName := phase.abilities.getD idx ""
        let r := executeAttack attackName playerPos b
        ({ r.1 with lastAttackTime := now }, some (attackName, r.2))

/-- `Boss.update(deltaTime, playerPos)`: phase check, movement, attacks,
UI refresh (external), then `super.update` on the `Enemy` base fields. -/
def bossUpdate (E : Externals) (R : Rands) (now deltaTime : ℚ) (playerPos : Vec2)
    (b : BossState) : BossState :=
  let b1 := checkPhaseTransition now b
  let b2 := updateBossMovement E R now deltaTime playerPos b1
  let b3 := (updateBossAttacks now R.attack playerPos b2).1
  setBossCore b3 (E.enemyUpdate deltaTime playerPos (bossCore b3))

/-- `Boss.takeDamage(amount)`: delegate to `super.takeDamage` (external
`Enemy` method) and, when that reports death, run `onBossDefeated`, which
only logs and destroys UI graphics — no simulation-state change. -/
def bossTakeDamage (E : Externals) (amount : ℚ) (b : BossState) : BossState :=
  let r := E.enemyTakeDamage amount (bossCore b)
  setBossCore b r.1

/-- Constructor of `Boss`: store the config, snapshot the arena center and
radius, and start with phase 0, cooldown 2000 and cleared movement scratch
state.  The `Enemy`-base fields start as the external base constructor
leaves them, passed in as `core`. -/
def mkBoss (cfg : BossConfigL) (core : EnemyCore) : BossState :=
  { config := cfg
    position := core.position
    health := core.health
    maxHealth := core.maxHealth
    speed := core.speed
    knockbackVelocity := core.knockbackVelocity
    isDying := core.isDying
    spriteActive := core.spriteActive
    hitboxRadius := 0
    currentPhase := 0
    lastAttackTime := 0
    attackCooldown := 2000
    arenaCenter := cfg.position
    arenaRadius := cfg.arenaRadius
    circleAngle := 0
    circleSpeed := 1
    chargeTarget := none
    isCharging := false
    swimDirection := ⟨1, 0⟩
    swimTimer := 0 }

/-- `Boss.spawn(x, y, enemyType)`.  Modelled from the spec for the
`super.spawn` part: `Enemy.spawn` is an external collaborator (its source is
not under src/) that places the sprite at `(x, y)`, activates it and takes
health and speed from the enemy-type stat table; the boss then overrides
health and maxHealth with the config health, sets the larger hitbox and
resets the phase index, exactly as in the source override. -/
def bossSpawn (E : Externals) (x y : ℚ) (enemyType : String) (b : BossState) : BossState :=
  let b1 := { b with
    position := ⟨x, y⟩
    spriteActive := true
    isDying := false
    knockbackVelocity := ⟨0, 0⟩
    health := E.healthOfType enemyType
    maxHealth := E.healthOfType enemyType
    speed := E.speedOfType enemyType }
  { b1 with
    health := b1.config.health
    maxHealth := b1.config.health
    hitboxRadius := 40
    currentPhase := 0 }

/-- `Boss.reset()`: `super.reset` (external; deactivates the sprite) plus the
boss-specific field resets of the source. -/
def bossReset (b : BossState) : BossState :=
  { b with
    spriteActive := false
    currentPhase := 0
    lastAttackTime := 0
    circleAngle := 0
    chargeTarget := none
    isCharging := false
    swimDirection := ⟨1, 0⟩
    swimTimer := 0
    attackCooldown := 2000 }

/-- One externally driven step on a boss, for stating properties over
arbitrary interleavings of ticks, damage intake and phase checks. -/
inductive BossOp where
  | tick (R : Rands) (now deltaTime : ℚ) (playerPos : Vec2)
  | damage (amount : ℚ)
  | phaseCheck (now : ℚ)
deriving Repr

/-- Apply one `BossOp`. -/
def applyBossOp (E : Externals) (op : BossOp) (b : BossState) : BossState :=
  match op with
  | .tick R now dt p => bossUpdate E R now dt p b
  | .damage amt => bossTakeDamage E amt b
  | .phaseCheck now => checkPhaseTransition now b

/-- Run a sequence of `BossOp`s left to right. -/
def runBossOps (E : Externals) (ops : List BossOp) (b : BossState) : BossState :=
  ops.foldl (fun s op => applyBossOp E op s) b

/-! ## Zone catalog and encounter manager (`EncounterSystem.ts`) -/

/-- From `interface StationaryEnemy` (the placement part; the runtime
`enemy?` back-reference is represented by key presence in the manager's
active-enemy collection). -/
structure StationaryEnemyCfg where
  position : Vec2
  enemyType : String
  aggroRadius : ℚ
  patrolPath : Option (List Vec2)
  state : EnemyState
deriving DecidableEq, Repr

/-- From `interface KickableObjectConfig` (the runtime `object?`
back-reference is likewise represented by key presence). -/
structure KickableObjectCfg where
  position : Vec2
  otype : ObjectType
deriving DecidableEq, Repr

/-- From `interface ZoneTheme`. -/
structure ZoneTheme where
  backgroundColor : ℕ
  groundTexture : String
  ambientColor : ℕ
  musicTrack : String
deriving DecidableEq, Repr

/-- From `interface GameZone`. -/
structure GameZoneL where
  id : String
  name : String
  boundsX : ℚ
  boundsY : ℚ
  boundsW : ℚ
  boundsH : ℚ
  enemies : List StationaryEnemyCfg
  kickableObjects : List KickableObjectCfg
  boss : Option BossConfigL
  theme : ZoneTheme
  requiredCharacters : List String
  isUnlocked : Bool
deriving DecidableEq, Repr

/-- A pooled runtime enemy together with the ad-hoc aggro annotations
`loadZone` attaches (`aggroRadius`, `originalPosition`, `patrolPath`,
`patrolIndex`, `hasAggro`, `movementType`). -/
structure EnemyRuntime where
  position : Vec2
  health : ℚ
  speed : ℚ
  spriteActive : Bool
  isDying : Bool
  aggroRadius : ℚ
  originalPosition : Vec2
  patrolPath : Option (List Vec2)
  patrolIndex : ℕ
  hasAggro : Bool
  movementType : String
deriving DecidableEq, Repr

/-- The hard-coded catalog of `createGameZones`. -/
def gameZones : List GameZoneL :=
  [ { id := "tutorial-grove"
      name := "Tutorial Grove"
      boundsX := 0, boundsY := 0, boundsW := 1200, boundsH := 800
      enemies :=
        [ { position := ⟨300, 200⟩, enemyType := "basic", aggroRadius := 100, patrolPath := none, state := .stationary }
        , { position := ⟨500, 300⟩, enemyType := "basic", aggroRadius := 120, patrolPath := none, state := .stationary }
        , { position := ⟨700, 150⟩, enemyType := "fast", aggroRadius := 140, patrolPath := none, state := .stationary }
        , { position := ⟨400, 500⟩, enemyType := "basic", aggroRadius := 110, patrolPath := none, state := .stationary }
        , { position := ⟨800, 400⟩, enemyType := "fast", aggroRadius := 130, patrolPath := none, state := .stationary } ]
      kickableObjects :=
        [ { position := ⟨350, 250⟩, otype := .barrel }
        , { position := ⟨600, 200⟩, otype := .box }
        , { position := ⟨450, 400⟩, otype := .stone } ]
      boss := some
        { type := "swarm-king"
          name := "Swarm King Chimpanzini"
          position := ⟨900, 600⟩
          health := 300
          phases :=
            [ { healthThreshold := 1.0, abilities := ["summon-swarm"], movementPattern := "circle" }
            , { healthThreshold := 0.5, abilities := ["summon-swarm", "charge-attack"], movementPattern := "aggressive" } ]
          arenaRadius := 200
          unlockCharacter := "chimpanzini-bananini" }
      theme := { backgroundColor := 0x2d5a27, groundTexture := "grass", ambientColor := 0x90ff90, musicTrack := "forest-theme" }
      requiredCharacters := []
      isUnlocked := true }
  , { id := "desert-outpost"
      name := "Desert Outpost"
      boundsX := 1500, boundsY := 0, boundsW := 1400, boundsH := 900
      enemies :=
        [ { position := ⟨1700, 200⟩, enemyType := "tank", aggroRadius := 120,
            patrolPath := some [⟨1700, 200⟩, ⟨1900, 200⟩, ⟨1900, 400⟩, ⟨1700, 400⟩], state := .patrolling }
        , { position := ⟨2000, 300⟩, enemyType := "fast", aggroRadius := 160, patrolPath := none, state := .stationary }
        , { position := ⟨2200, 150⟩, enemyType := "fast", aggroRadius := 140, patrolPath := none, state := .stationary }
        , { position := ⟨1800, 500⟩, enemyType := "basic", aggroRadius := 100, patrolPath := none, state := .stationary }
        , { position := ⟨2100, 600⟩, enemyType := "tank", aggroRadius := 130, patrolPath := none, state := .stationary }
        , { position := ⟨2300, 450⟩, enemyType := "swarm", aggroRadius := 180, patrolPath := none, state := .stationary } ]
      kickableObjects :=
        [ { position := ⟨1750, 300⟩, otype := .barrel }
        , { position := ⟨2050, 250⟩, otype := .stone }
        , { position := ⟨2150, 500⟩, otype := .log } ]
      boss := some
        { type := "desert-bomber"
          name := "Bombardiro Crocodilo"
          position := ⟨2500, 700⟩
          health := 500
          phases :=
            [ { healthThreshold := 1.0, abilities := ["bomb-barrage"], movementPattern := "stationary" }
            , { healthThreshold := 0.7, abilities := ["bomb-barrage", "charge-slam"], movementPattern := "chase" }
            , { healthThreshold := 0.3, abilities := ["mega-bomb", "charge-slam"], movementPattern := "berserker" } ]
          arenaRadius := 250
          unlockCharacter := "bombardiro-crocodilo" }
      theme := { backgroundColor := 0x8b7355, groundTexture := "sand", ambientColor := 0xffdd88, musicTrack := "desert-theme" }
      requiredCharacters := ["chimpanzini-bananini"]
      isUnlocked := false }
  , { id := "arctic-lab"
      name := "Arctic Laboratory"
      boundsX := 0, boundsY := 1200, boundsW := 1600, boundsH := 1000
      enemies :=
        [ { position := ⟨200, 1400⟩, enemyType := "elite", aggroRadius := 200,
            patrolPath := some [⟨200, 1400⟩, ⟨400, 1400⟩, ⟨400, 1600⟩, ⟨200, 1600⟩], state := .patrolling }
        , { position := ⟨600, 1300⟩, enemyType := "tank", aggroRadius := 140, patrolPath := none, state := .stationary }
        , { position := ⟨800, 1500⟩, enemyType := "tank", aggroRadius := 130, patrolPath := none, state := .stationary }
        , { position := ⟨1000, 1350⟩, enemyType := "swarm", aggroRadius := 160, patrolPath := none, state := .stationary }
        , { position := ⟨1200, 1450⟩, enemyType := "elite", aggroRadius := 180, patrolPath := none, state := .stationary }
        , { position := ⟨900, 1700⟩, enemyType := "fast", aggroRadius := 170, patrolPath := none, state := .stationary }
        , { position := ⟨1100, 1650⟩, enemyType := "fast", aggroRadius := 160, patrolPath := none, state := .stationary } ]
      kickableObjects :=
        [ { position := ⟨300, 1500⟩, otype := .barrel }
        , { position := ⟨700, 1400⟩, otype := .box }
        , { position := ⟨950, 1600⟩, otype := .stone }
        , { position := ⟨1300, 1500⟩, otype := .barrel } ]
      boss := some
        { type := "ice-shark"
          name := "Tralalero Tralala"
          position := ⟨1400, 1800⟩
          health := 700
          phases :=
            [ { healthThreshold := 1.0, abilities := ["ice-dash"], movementPattern := "swimming" }
            , { healthThreshold := 0.6, abilities := ["ice-dash", "freeze-wave"], movementPattern := "aggressive-swim" }
            , { healthThreshold := 0.2, abilities := ["mega-freeze", "triple-dash"], movementPattern := "frenzy" } ]
          arenaRadius := 300
          unlockCharacter := "tralalero-tralala" }
      theme := { backgroundColor := 0x4a7c7e, groundTexture := "ice", ambientColor := 0xaaffff, musicTrack := "arctic-theme" }
      requiredCharacters := ["bombardiro-crocodilo"]
      isUnlocked := false } ]

/-- State owned by `class EncounterSystem`.  `currentZone` holds the index of
the active zone in `zones` — the source stores a reference into the same
array, so mutations through `currentZone` and through `zones` alias; the
index models that aliasing.  The enemy pool itself is an external
collaborator (acquire hands out a reset instance; release deactivates it). -/
structure EncounterState where
  zones : List GameZoneL
  currentZone : Option ℕ
  activeEnemies : List (String × EnemyRuntime)
  activeObjects : List (String × KickableObject)
  currentBoss : Option BossState
  isBossFight : Bool
deriving DecidableEq, Repr

/-- Constructor state of `EncounterSystem`: the hard-coded catalog, nothing
active. -/
def initEncounterState : EncounterState :=
  { zones := gameZones
    currentZone := none
    activeEnemies := []
    activeObjects := []
    currentBoss := none
    isBossFight := false }

/-- Lookup in an insertion-ordered association list (the embedding of the
string-keyed `Map`s of the source). -/
def assocGet (l : List (String × β)) (k : String) : Option β :=
  (l.find? (fun p => p.1 = k)).map (fun p => p.2)

/-- Update the value at a key in an association list, leaving order intact. -/
def assocSet (l : List (String × β)) (k : String) (b : β) : List (String × β) :=
  l.map (fun p => if p.1 = k then (k, b) else p)

/-- Position-aware embedding of `zones.find(z => z.id === zoneId)`: the first
zone with the given id, together with its index (the source keeps a
reference, which aliases the array slot; the index realizes the alias). -/
def zoneFind : List GameZoneL → String → Option (ℕ × GameZoneL)
  | [], _ => none
  | z :: zs, zid =>
      if z.id = zid then some (0, z)
      else (zoneFind zs zid).map (fun p => (p.1 + 1, p.2))

/-- The key under which `loadZone` stores the runtime of placement `j` of
zone `zid` in the active-enemy map. -/
def enemyKey (zid : String) (j : ℕ) : String := zid ++ "-enemy-" ++ toString j

/-- The key under which `loadZone` stores the runtime prop of placement `j`. -/
def objectKey (zid : String) (j : ℕ) : String := zid ++ "-object-" ++ toString j

/-- The runtime enemy `loadZone` builds for a placement: the pool hands out a
reset instance, `loadZone` attaches the aggro annotations, `spawn` places it
(health and speed coming from the external enemy-type table), and the
movement type is overridden for stationary/patrolling placements (other
states keep the type-table default the external spawn installed). -/
def spawnEnemyRuntime (E : Externals) (cfg : StationaryEnemyCfg) : EnemyRuntime :=
  { position := cfg.position
    health := E.healthOfType cfg.enemyType
    speed := E.speedOfType cfg.enemyType
    spriteActive := true
    isDying := false
    aggroRadius := cfg.aggroRadius
    originalPosition := cfg.position
    patrolPath := cfg.patrolPath
    patrolIndex := 0
    hasAggro := false
    movementType :=
      if cfg.state = .stationary then "stationary"
      else if cfg.state = .patrolling then "patrol"
      else E.movementTypeOf cfg.enemyType }

/-- `EncounterSystem.clearCurrentZone`: release every active enemy back to
the pool, destroy every active prop (both external effects), empty both
collections and drop the zone reference. -/
def clearCurrentZone (st : EncounterState) : EncounterState :=
  { st with activeEnemies := [], activeObjects := [], currentZone := none }

/-- `EncounterSystem.loadZone(zoneId)`: warn-and-return when the id matches
no zone or the zone is locked; otherwise clear the previous zone, make the
found zone current, spawn one runtime enemy per placement and one prop per
prop placement under their derived keys, and apply the zone theme (external
camera call). -/
def loadZone (E : Externals) (st : EncounterState) (zoneId : String) : EncounterState :=
  match zoneFind st.zones zoneId with
  | none => st
  | some (zi, z) =>
    if z.isUnlocked = false then st
    else
      let st1 := clearCurrentZone st
      let st2 := { st1 with currentZone := some zi }
      let newEnemies := z.enemies.enum.map
        (fun p => (enemyKey z.id p.1, spawnEnemyRuntime E p.2))
      let newObjects := z.kickableObjects.enum.map
        (fun p => (objectKey z.id p.1, mkKickableObject p.2.position.x p.2.position.y p.2.otype))
      { st2 with activeEnemies := newEnemies, activeObjects := newObjects }

/-- `EncounterSystem.unlockZone(zoneId)`: set the unlock flag on the matching
catalog entry, no-op when absent. -/
def unlockZone (st : EncounterState) (zoneId : String) : EncounterState :=
  match zoneFind st.zones zoneId with
  | none => st
  | some (zi, z) => { st with zones := st.zones.set zi { z with isUnlocked := true } }

/-- `EncounterSystem.updatePatrol`: walk toward the current patrol waypoint
at half speed (per-frame step `speed * 0.5 * (1/60)`), advancing the
waypoint index cyclically on arrival within 20 units.  Note the source keeps
moving toward the *old* waypoint on the frame the index advances.  Returns
the new position and patrol index. -/
def updatePatrol (E : Externals) (speed : ℚ) (path : Option (List Vec2)) (idx : ℕ)
    (pos : Vec2) : Vec2 × ℕ :=
  match path with
  | none => (pos, idx)
  | some waypoints =>
    if waypoints.length = 0 then (pos, idx)
    else
      let targetPos := waypoints.getD idx ⟨0, 0⟩
      let distanceToTarget := E.sqrtQ (dist2 pos targetPos)
      let idx2 := if distanceToTarget < 20 then (idx + 1) % waypoints.length else idx
      let dx := targetPos.x - pos.x
      let dy := targetPos.y - pos.y
      let dist := E.sqrtQ (dx * dx + dy * dy)
      if dist > 5 then
        let moveSpeed := speed * 0.5
        (⟨pos.x + dx / dist * moveSpeed * (1 / 60), pos.y + dy / dist * moveSpeed * (1 / 60)⟩, idx2)
      else (pos, idx2)

/-- `EncounterSystem.updateEnemyAggro(enemyConfig, playerPos)` on one
placement/runtime pair: compute the distance to the player, run the
aggro-transition switch on the shared fields (`aggroTransition` is exactly
that switch), and perform the patrol stepping that the `PATROLLING` branch
runs when the enemy neither triggers aggro nor has it
(`else if (!hasAggro) updatePatrol(...)`). -/
def updateEnemyAggro (E : Externals) (playerPos : Vec2) (cfg : StationaryEnemyCfg)
    (en : EnemyRuntime) : StationaryEnemyCfg × EnemyRuntime :=
  let d := E.sqrtQ (dist2 en.position playerPos)
  let a : AggroFields :=
    { state := cfg.state, hasAggro := en.hasAggro
      patrolPath := cfg.patrolPath, movementType := en.movementType }
  let a2 := aggroTransition d cfg.aggroRadius a
  let pp :=
    if cfg.state = .patrolling ∧ en.hasAggro = false ∧ ¬d ≤ cfg.aggroRadius then
      updatePatrol E en.speed cfg.patrolPath en.patrolIndex en.position
    else (en.position, en.patrolIndex)
  ({ cfg with state := a2.state },
   { en with hasAggro := a2.hasAggro, movementType := a2.movementType,
             position := pp.1, patrolIndex := pp.2 })

/-- One iteration of the aggro loop of `EncounterSystem.update`: placement
`j` of zone `zi` is skipped when it has no live runtime enemy (no entry
under its key, or sprite inactive — a released pooled enemy is inactive),
otherwise the updated placement and runtime are written back. -/
def stepAggroOne (E : Externals) (playerPos : Vec2) (zi j : ℕ) (st : EncounterState) :
    EncounterState :=
  match st.zones.get? zi with
  | none => st
  | some z =>
    match z.enemies.get? j with
    | none => st
    | some cfg =>
      match assocGet st.activeEnemies (enemyKey z.id j) with
      | none => st
      | some en =>
        if en.spriteActive then
          let r := updateEnemyAggro E playerPos cfg en
          { st with
            zones := st.zones.set zi { z with enemies := z.enemies.set j r.1 }
            activeEnemies := assocSet st.activeEnemies (enemyKey z.id j) r.2 }
        else st

/-- The `currentZone.enemies.forEach` aggro loop of `EncounterSystem.update`. -/
def stepAggroAll (E : Externals) (playerPos : Vec2) (zi : ℕ) (st : EncounterState) :
    EncounterState :=
  match st.zones.get? zi with
  | none => st
  | some z =>
    (List.range z.enemies.length).foldl (fun s j => stepAggroOne E playerPos zi j s) st

/-- The fixed mapping from boss `type` to the enemy archetype used for its
placeholder visual in `startBossFight`. -/
def bossArchetypeFor (t : String) : String :=
  if t = "swarm-king" then "elite"
  else if t = "desert-bomber" then "tank"
  else if t = "ice-shark" then "elite"
  else "elite"

/-- The `Enemy`-base state the external `Enemy` constructor leaves before
`spawn` is called.  Modelled from the spec: the `Enemy` source is not under
src/; only the fields `spawn` later overwrites matter downstream. -/
def freshEnemyCore : EnemyCore :=
  { position := ⟨0, 0⟩, health := 0, maxHealth := 0, speed := 0
    knockbackVelocity := ⟨0, 0⟩, isDying := false, spriteActive := false }

/-- `EncounterSystem.startBossFight()`: clear all regular enemies (released,
not killed), construct the boss from the zone's config, spawn it at the
configured position with the archetype for its type, and raise
`isBossFight`. -/
def startBossFight (E : Externals) (zoneBoss : BossConfigL) (st : EncounterState) :
    EncounterState :=
  let st1 := { st with activeEnemies := [] }
  let boss := mkBoss zoneBoss freshEnemyCore
  let boss := bossSpawn E zoneBoss.position.x zoneBoss.position.y
    (bossArchetypeFor zoneBoss.type) boss
  { st1 with currentBoss := some boss, isBossFight := true }

/-- `EncounterSystem.unlockNextZone()`: find the current zone in catalog
order and unconditionally unlock the next one, if any. -/
def unlockNextZone (st : EncounterState) : EncounterState :=
  match st.currentZone with
  | none => st
  | some zi =>
    match st.zones.get? zi with
    | none => st
    | some z =>
      match zoneFind st.zones z.id with
      | none => st
      | some (i, _) =>
        match st.zones.get? (i + 1) with
        | none => st
        | some nz => { st with zones := st.zones.set (i + 1) { nz with isUnlocked := true } }

/-- `EncounterSystem.onBossDefeated()`: guard on a live boss and a zone with
a boss config; call the character-unlock collaborator with the boss type
(external side effect), unlock the next catalog zone, reset and drop the
boss, and lower `isBossFight`. -/
def onBossDefeated (E : Externals) (st : EncounterState) : EncounterState :=
  match st.currentBoss with
  | none => st
  | some _ =>
    match st.currentZone.bind (fun zi => st.zones.get? zi) with
    | none => st
    | some z =>
      match z.boss with
      | none => st
      | some bcfg =>
        let _unlocked := E.unlockByBoss bcfg.type
        let st1 := unlockNextZone st
        { st1 with currentBoss := none, isBossFight := false }

/-- The dead-enemy sweep of `EncounterSystem.update`: release (and drop) any
active, zero-health, not-dying enemy. -/
def sweepDeadEnemies (st : EncounterState) : EncounterState :=
  let keep := fun (p : String × EnemyRuntime) =>
    !(p.2.spriteActive && decide (p.2.health ≤ 0) && !p.2.isDying)
  { st with activeEnemies := st.activeEnemies.filter keep }

/-- The broken-prop sweep of `EncounterSystem.update`: destroy (and drop) any
broken prop. -/
def sweepBrokenObjects (st : EncounterState) : EncounterState :=
  { st with activeObjects := st.activeObjects.filter (fun p => !p.2.isBroken) }

/-- `EncounterSystem.update(currentTime, playerPos)` — the per-frame driver.
The first parameter is accepted but never read by the source body: the boss
and every prop are stepped with the literal fixed tick `16`.  `now` stands
for the `Date.now()` reads inside the boss step and `R` for its random
draws.  Order as in the source: boss step and defeat check; prop physics;
if no boss fight, the aggro loop and then the arena-proximity boss trigger;
finally the dead-enemy and broken-prop sweeps. -/
def encounterUpdate (E : Externals) (R : Rands) (currentTime : ℚ) (playerPos : Vec2)
    (now : ℚ) (st : EncounterState) : EncounterState :=
  match st.currentZone with
  | none => st
  | some zi =>
    let st1 :=
      match st.currentBoss with
      | some boss =>
        if boss.spriteActive then
          let boss2 := bossUpdate E R now 16 playerPos boss
          let st1 := { st with currentBoss := some boss2 }
          if boss2.health ≤ 0 ∧ boss2.isDying then onBossDefeated E st1 else st1
        else st
      | none => st
    let st2 := { st1 with activeObjects :=
      st1.activeObjects.map (fun p => (p.1, kUpdate E.sqrtQ 16 p.2)) }
    let st3 :=
      if st2.isBossFight then st2
      else
        let st3 := stepAggroAll E playerPos zi st2
        match st3.zones.get? zi with
        | none => st3
        | some z =>
          match z.boss with
          | none => st3
          | some bcfg =>
            if st3.currentBoss.isNone then
              let distanceToBoss := E.sqrtQ (dist2 playerPos bcfg.position)
              if distanceToBoss ≤ bcfg.arenaRadius then startBossFight E bcfg st3 else st3
            else st3
    sweepBrokenObjects (sweepDeadEnemies st3)

/-- `EncounterSystem.reset()`: clear the zone and its entities, reset and
drop the boss, lower `isBossFight`, clear the prop collection again —
unconditionally; the zone catalog (and so every unlock flag) is untouched. -/
def encounterReset (st : EncounterState) : EncounterState :=
  let st1 := clearCurrentZone st
  let st2 := { st1 with currentBoss := none, isBossFight := false }
  { st2 with activeObjects := [] }

/-- `EncounterSystem.isBossActive()`. -/
def isBossActive (st : EncounterState) : Bool :=
  st.isBossFight && st.currentBoss.isSome

/-- `EncounterSystem.getBoss()`. -/
def getBoss (st : EncounterState) : Option BossState :=
  st.currentBoss

/-- `EncounterSystem.getCurrentZone()`. -/
def getCurrentZone (st : EncounterState) : Option GameZoneL :=
  st.currentZone.bind (fun zi => st.zones.get? zi)

/-! ## Concrete instantiations used to evaluate the embedding -/

/-- A concrete, fully computable choice of the external collaborators, used
to evaluate the embedding on closed inputs.  `sqrtQ` is the constant-zero
function (which satisfies `sqrtQ 0 = 0`); the `Enemy` base methods follow
the spec's description of damage intake (reduce health, report the
transition to ≤ 0) and leave the core untouched on update. -/
def witnessExternals : Externals :=
  { sqrtQ := fun _ => 0
    cosQ := fun _ => 1
    sinQ := fun _ => 0
    enemyUpdate := fun _ _ c => c
    enemyTakeDamage := fun amt c =>
      ({ c with health := c.health - amt }, decide (c.health - amt ≤ 0))
    healthOfType := fun _ => 100
    speedOfType := fun _ => 100
    movementTypeOf := fun _ => "homing"
    unlockByBoss := fun _ => true }

/-- Fallback boss config (never reached on the shipped catalog). -/
def fallbackBossConfig : BossConfigL :=
  { type := "", name := "", position := ⟨0, 0⟩, health := 0, phases := []
    arenaRadius := 0, unlockCharacter := "" }

/-- The `tutorial-grove` boss config of the shipped catalog. -/
def tutorialBossConfig : BossConfigL :=
  ((gameZones.get? 0).bind (fun z => z.boss)).getD fallbackBossConfig

/-- The tutorial boss as `startBossFight` spawns it. -/
def tutorialBossSpawned : BossState :=
  bossSpawn witnessExternals 900 600 (bossArchetypeFor tutorialBossConfig.type)
    (mkBoss tutorialBossConfig freshEnemyCore)

/-! ## Theorems -/

/-- C3: for every kickable prop and every enemy argument, `hitEnemy` returns
the prop type's fixed damage constant whenever the prop is flying and not
broken at the time of the call, returns exactly 0 whenever the prop is
broken or not flying, and the returned value never depends on the velocity
(hence not on the impact speed), for every interpretation of `Math.sqrt`. -/
theorem hitEnemy_fixed_damage (sqrtQ : ℚ → ℚ) (k : KickableObject) (hasKb : Bool) :
    (k.isFlying = true → k.isBroken = false →
      (hitEnemy sqrtQ k hasKb).damage = k.config.damage)
    ∧ (k.isBroken = true ∨ k.isFlying = false → (hitEnemy sqrtQ k hasKb).damage = 0)
    ∧ (∀ v w : Vec2,
        (hitEnemy sqrtQ { k with velocity := v } hasKb).damage
          = (hitEnemy sqrtQ { k with velocity := w } hasKb).damage) := by
  refine ⟨?_, ?_, ?_⟩
  · intro hf hb
    simp [hitEnemy, hf, hb]
  · intro h
    rcases h with h | h <;> simp [hitEnemy, h]
  · intro v w
    by_cases hb : k.isBroken = true <;> by_cases hf : k.isFlying = true <;>
      simp [hitEnemy, hb, hf]

/-- Witness for C3: a flying, unbroken box returns its damage constant 25. -/
theorem hitEnemy_fixed_damage_witness :
    (hitEnemy (fun _ => 0) { mkKickableObject 0 0 ObjectType.box with isFlying := true }
      true).damage = 25 := by
  have h := (hitEnemy_fixed_damage (fun _ => 0)
    { mkKickableObject 0 0 ObjectType.box with isFlying := true } true).1 rfl rfl
  rw [h]
  decide

/-- C6: the per-frame driver's simulation effect is identical for every value
of its first (`deltaTime`/`currentTime`) argument: the source body never
reads it, stepping the boss and every prop with the literal fixed 16ms tick,
so two runs differing only in that argument produce the same state. -/
theorem encounterUpdate_deltaTime_irrelevant (E : Externals) (R : Rands)
    (t1 t2 : ℚ) (playerPos : Vec2) (now : ℚ) (st : EncounterState) :
    encounterUpdate E R t1 playerPos now st = encounterUpdate E R t2 playerPos now st := rfl

/-- C9: after `reset()`, regardless of prior state, there is no current zone,
no active boss fight, no boss, no active enemies and no active props, while
every zone's unlock flag is untouched. -/
theorem encounterReset_spec (st : EncounterState) :
    (encounterReset st).currentZone = none
    ∧ isBossActive (encounterReset st) = false
    ∧ getBoss (encounterReset st) = none
    ∧ (encounterReset st).activeEnemies = []
    ∧ (encounterReset st).activeObjects = []
    ∧ (encounterReset st).zones.map (fun z => z.isUnlocked)
        = st.zones.map (fun z => z.isUnlocked) := by
  refine ⟨rfl, ?_, rfl, rfl, rfl, rfl⟩
  simp [isBossActive, encounterReset, clearCurrentZone]

/-- C4 counterexample: kicking a box (weight 20) and a stone (weight 80)
with the zero force vector and full character kick force leaves both
velocities at zero, so the lighter prop's speed is *not* strictly larger —
the comparative part of the claim fails on the zero-force edge case the
claim itself includes. -/
theorem applyKick_zero_force_ce :
    (mkKickableObject 0 0 ObjectType.box).isBroken = false
    ∧ (mkKickableObject 0 0 ObjectType.stone).isBroken = false
    ∧ (mkKickableObject 0 0 ObjectType.box).weight
        < (mkKickableObject 0 0 ObjectType.stone).weight
    ∧ ¬ normSq (applyKick (mkKickableObject 0 0 ObjectType.box) 0 0 100 0).velocity
        > normSq (applyKick (mkKickableObject 0 0 ObjectType.stone) 0 0 100 0).velocity := by
  with_unfolding_all decide

/-- C4 (amended): for every unbroken prop and *every* force vector —
including the zero vector — `applyKick` sets velocity exactly (not
additively) to the force scaled by `(100/weight) * (kickForce/100)` and
raises `isFlying`; and for two unbroken props with positive weights
`w1 < w2` kicked with identical *nonzero* force and nonzero character kick
force, the lighter prop's squared speed (equivalently its speed) is
strictly larger. -/
theorem applyKick_scaling_and_weight_order
    (k p1 p2 : KickableObject) (fx fy kf r r1 r2 : ℚ)
    (hk : k.isBroken = false)
    (h1 : p1.isBroken = false) (h2 : p2.isBroken = false)
    (hw0 : 0 < p1.weight) (hw : p1.weight < p2.weight) :
    ((applyKick k fx fy kf r).velocity
        = ⟨fx * (100 / k.weight) * (kf / 100), fy * (100 / k.weight) * (kf / 100)⟩
      ∧ (applyKick k fx fy kf r).isFlying = true)
    ∧ (¬(fx = 0 ∧ fy = 0) → kf ≠ 0 →
        normSq (applyKick p1 fx fy kf r1).velocity
          > normSq (applyKick p2 fx fy kf r2).velocity) := by
  constructor
  · constructor
    · simp [applyKick, hk]
    · simp [applyKick, hk]
  · intro hf hkf
    have hw2 : 0 < p2.weight := hw0.trans hw
    have hb : 0 < 100 / p2.weight := by positivity
    have hab : 100 / p2.weight < 100 / p1.weight :=
      div_lt_div_of_pos_left (by norm_num) hw0 hw
    have hb2 : (100 / p2.weight) * (100 / p2.weight)
        < (100 / p1.weight) * (100 / p1.weight) := by nlinarith
    have hs : 0 < fx * fx + fy * fy := by
      rcases not_and_or.mp hf with h | h
      · nlinarith [mul_self_pos.mpr h, mul_self_nonneg fy]
      · nlinarith [mul_self_pos.mpr h, mul_self_nonneg fx]
    have hc : 0 < (kf / 100) * (kf / 100) :=
      mul_self_pos.mpr (div_ne_zero hkf (by norm_num))
    simp only [applyKick, h1, h2, Bool.false_eq_true, if_false, normSq]
    nlinarith [mul_lt_mul_of_pos_left hb2 (mul_pos hs hc)]

/-- Witness for the amended C4: a barrel kicked with the zero force vector
still starts flying with the exactly-scaled (zero) velocity, and box vs
stone kicked with force (100, 0) at kick force 100 order strictly by
weight. -/
theorem applyKick_scaling_and_weight_order_witness :
    ((applyKick (mkKickableObject 0 0 ObjectType.barrel) 0 0 100 0).velocity
        = ⟨0 * (100 / (mkKickableObject 0 0 ObjectType.barrel).weight) * (100 / 100),
           0 * (100 / (mkKickableObject 0 0 ObjectType.barrel).weight) * (100 / 100)⟩
      ∧ (applyKick (mkKickableObject 0 0 ObjectType.barrel) 0 0 100 0).isFlying = true)
    ∧ normSq (applyKick (mkKickableObject 0 0 ObjectType.box) 100 0 100 0).velocity
        > normSq (applyKick (mkKickableObject 0 0 ObjectType.stone) 100 0 100 0).velocity := by
  refine ⟨?_, ?_⟩
  · exact (applyKick_scaling_and_weight_order
      (mkKickableObject 0 0 ObjectType.barrel) (mkKickableObject 0 0 ObjectType.box)
      (mkKickableObject 0 0 ObjectType.stone) 0 0 100 0 0 0
      (by with_unfolding_all decide) (by with_unfolding_all decide)
      (by with_unfolding_all decide) (by with_unfolding_all decide)
      (by with_unfolding_all decide)).1
  · exact (applyKick_scaling_and_weight_order
      (mkKickableObject 0 0 ObjectType.barrel) (mkKickableObject 0 0 ObjectType.box)
      (mkKickableObject 0 0 ObjectType.stone) 100 0 100 0 0 0
      (by with_unfolding_all decide) (by with_unfolding_all decide)
      (by with_unfolding_all decide) (by with_unfolding_all decide)
      (by with_unfolding_all decide)).2
      (by with_unfolding_all decide) (by with_unfolding_all decide)

/-- C7: the invariant `isBroken → ¬isFlying ∧ velocity = 0` holds after
construction and is preserved by `applyKick`, `hitEnemy`, `takeDamage`,
`update` and `reset`, for every interpretation of `Math.sqrt`. -/
theorem kickable_broken_invariant
    (sqrtQ : ℚ → ℚ) (k : KickableObject) (x y fx fy kf r amt dt : ℚ)
    (t : ObjectType) (hasKb : Bool) (h : propInv k) :
    propInv (mkKickableObject x y t)
    ∧ propInv (applyKick k fx fy kf r)
    ∧ propInv (hitEnemy sqrtQ k hasKb).prop
    ∧ propInv (kTakeDamage k amt)
    ∧ propInv (kUpdate sqrtQ dt k)
    ∧ propInv (kReset k) := by
  have hbreak : ∀ k1 : KickableObject, propInv k1 → propInv (breakObject k1) := by
    intro k1 h1
    unfold breakObject
    split
    · exact h1
    · intro _
      exact ⟨rfl, rfl⟩
  have hdam : ∀ (k1 : KickableObject) (a : ℚ), propInv k1 → propInv (kTakeDamage k1 a) := by
    intro k1 a h1
    unfold kTakeDamage
    split
    · exact h1
    · rename_i hnb
      dsimp only
      split
      · apply hbreak
        intro hb
        exact absurd hb hnb
      · intro hb
        exact absurd hb hnb
  refine ⟨?_, ?_, ?_, hdam k amt h, ?_, ?_⟩
  · intro hb
    exact Bool.noConfusion hb
  · unfold applyKick
    split
    · exact h
    · rename_i hnb
      intro hb
      exact absurd hb hnb
  · unfold hitEnemy
    split
    · exact h
    · dsimp only
      split
      · intro _
        exact ⟨rfl, rfl⟩
      · intro hb
        have hb2 : (kTakeDamage k 5).isBroken = true := hb
        have hvel := (hdam k 5 h) hb2
        refine ⟨hvel.1, ?_⟩
        show (⟨(kTakeDamage k 5).velocity.x * 0.7, (kTakeDamage k 5).velocity.y * 0.7⟩ : Vec2)
          = ⟨0, 0⟩
        rw [hvel.2]
        simp
  · unfold kUpdate
    split
    · exact h
    · rename_i hnb
      split
      · dsimp only
        split
        · intro _
          exact ⟨rfl, rfl⟩
        · intro hb
          exact absurd hb hnb
      · exact h
  · intro hb
    exact Bool.noConfusion hb

/-- Witness for C7: the invariant holds for the prop states produced from a
freshly built barrel. -/
theorem kickable_broken_invariant_witness :
    propInv (hitEnemy (fun _ => 0) (mkKickableObject 1 2 ObjectType.barrel) true).prop
    ∧ propInv (kTakeDamage (mkKickableObject 1 2 ObjectType.barrel) 100) := by
  have h := kickable_broken_invariant (fun _ => 0) (mkKickableObject 1 2 ObjectType.barrel)
    1 2 0 0 0 0 100 16 ObjectType.barrel true (by with_unfolding_all decide)
  exact ⟨h.2.2.1, h.2.2.2.1⟩

/-- C10: when a flying, unbroken prop has health at most 5 as `hitEnemy` is
called, the 5 self-damage breaks it before the knockback is computed, so the
knockback handed to the enemy (when its interface is present) is half of the
already-zeroed velocity — the zero vector — the measured impact speed is
`sqrt 0 = 0`, and yet the call still returns the type's full fixed damage
constant although the prop is broken at return time. -/
theorem hitEnemy_selfbreak_zero_knockback
    (sqrtQ : ℚ → ℚ) (k : KickableObject) (hasKb : Bool)
    (hsq : sqrtQ 0 = 0)
    (hfl : k.isFlying = true) (hbr : k.isBroken = false)
    (hbe : k.breakEffectPlayed = false) (hh : k.health ≤ 5) :
    (hitEnemy sqrtQ k hasKb).prop.isBroken = true
    ∧ (hitEnemy sqrtQ k hasKb).damage = k.config.damage
    ∧ (hitEnemy sqrtQ k hasKb).impactForce = 0
    ∧ (hasKb = true → (hitEnemy sqrtQ k hasKb).knockback = some ⟨0, 0⟩) := by
  have hdam : kTakeDamage k 5
      = breakObject { k with health := k.health - 5 } := by
    unfold kTakeDamage
    rw [if_neg (by simp [hbr]), if_pos (by simp; linarith)]
  have hbrk : breakObject { k with health := k.health - 5 }
      = { k with health := k.health - 5, isBroken := true, breakEffectPlayed := true,
                 isFlying := false, velocity := ⟨0, 0⟩ } := by
    unfold breakObject
    rw [if_neg (by simp [hbr, hbe])]
  have hvel : (kTakeDamage k 5).velocity = ⟨0, 0⟩ := by rw [hdam, hbrk]
  have hbro : (kTakeDamage k 5).isBroken = true := by rw [hdam, hbrk]
  have himp : sqrtQ ((kTakeDamage k 5).velocity.x * (kTakeDamage k 5).velocity.x
      + (kTakeDamage k 5).velocity.y * (kTakeDamage k 5).velocity.y) = 0 := by
    rw [hvel]
    simpa using hsq
  unfold hitEnemy
  rw [if_neg (by simp [hbr, hfl])]
  refine ⟨?_, rfl, himp, ?_⟩
  · dsimp only
    split
    · exact hbro
    · exact hbro
  · intro hkb
    dsimp only
    rw [hvel]
    simp [hkb]

/-- Witness for C10: a flying box at 5 health breaks on impact, transfers a
zero impulse, measures zero impact speed and still returns damage 25. -/
theorem hitEnemy_selfbreak_zero_knockback_witness :
    (hitEnemy (fun _ => 0)
        { mkKickableObject 0 0 ObjectType.box with isFlying := true, health := 5 }
        true).prop.isBroken = true
    ∧ (hitEnemy (fun _ => 0)
        { mkKickableObject 0 0 ObjectType.box with isFlying := true, health := 5 }
        true).damage
      = { mkKickableObject 0 0 ObjectType.box with
          isFlying := true, health := 5 }.config.damage
    ∧ (hitEnemy (fun _ => 0)
        { mkKickableObject 0 0 ObjectType.box with isFlying := true, health := 5 }
        true).impactForce = 0
    ∧ (true = true → (hitEnemy (fun _ => 0)
        { mkKickableObject 0 0 ObjectType.box with isFlying := true, health := 5 }
        true).knockback = some ⟨0, 0⟩) :=
  hitEnemy_selfbreak_zero_knockback (fun _ => 0)
    { mkKickableObject 0 0 ObjectType.box with isFlying := true, health := 5 }
    true rfl rfl rfl rfl (by with_unfolding_all decide)

/-- C1: in the aggro transition driven by `updateEnemyAggro` with Euclidean
distance `d` and aggro radius `r`: (i) from `Stationary` or `Patrolling`,
when `d ≤ r` and the enemy is not already aggroed, a single update moves the
placement to `Aggroed` (raising the aggro flag); (ii) once `Aggroed`, every
`d ≤ r * 1.5` — in particular the whole hysteresis band
`(r, r * 1.5]` — keeps it `Aggroed`; (iii) on de-aggro (`d > r * 1.5`) the
flag clears and the state reverts to `Patrolling` when a patrol path exists
and to `Stationary` otherwise. -/
theorem aggro_state_machine (d r : ℚ) (a : AggroFields) :
    ((a.state = EnemyState.stationary ∨ a.state = EnemyState.patrolling) →
      a.hasAggro = false → d ≤ r →
      (aggroTransition d r a).state = EnemyState.aggroed
      ∧ (aggroTransition d r a).hasAggro = true)
    ∧ (a.state = EnemyState.aggroed → d ≤ r * 1.5 →
      (aggroTransition d r a).state = EnemyState.aggroed)
    ∧ (a.state = EnemyState.aggroed → d > r * 1.5 →
      (aggroTransition d r a).hasAggro = false
      ∧ (aggroTransition d r a).state
          = (if a.patrolPath.isSome then EnemyState.patrolling else EnemyState.stationary)) := by
  refine ⟨?_, ?_, ?_⟩
  · intro hs hna hd
    rcases hs with hs | hs <;>
      simp [aggroTransition, hs, triggerAggro, hd, hna]
  · intro hs hd
    have hnd : ¬ d > r * 1.5 := not_lt.mpr hd
    simp [aggroTransition, hs, hnd]
  · intro hs hd
    by_cases hp : a.patrolPath.isSome <;>
      simp [aggroTransition, hs, hd, loseAggro, hp]

/-- Witness for C1: with radius 100, a stationary enemy at distance 80
aggroes; an aggroed enemy at distance 140 (inside the band `(100, 150]`)
stays aggroed; an aggroed pathless enemy at distance 151 reverts to
stationary with the flag cleared. -/
theorem aggro_state_machine_witness :
    ((aggroTransition 80 100 ⟨EnemyState.stationary, false, none, "stationary"⟩).state
        = EnemyState.aggroed
      ∧ (aggroTransition 80 100 ⟨EnemyState.stationary, false, none, "stationary"⟩).hasAggro
        = true)
    ∧ (aggroTransition 140 100 ⟨EnemyState.aggroed, true, none, "homing"⟩).state
        = EnemyState.aggroed
    ∧ ((aggroTransition 151 100 ⟨EnemyState.aggroed, true, none, "homing"⟩).hasAggro = false
      ∧ (aggroTransition 151 100 ⟨EnemyState.aggroed, true, none, "homing"⟩).state
          = (if (Option.isSome (α := List Vec2) none) then EnemyState.patrolling
             else EnemyState.stationary)) := by
  refine ⟨?_, ?_, ?_⟩
  · exact (aggro_state_machine 80 100 ⟨EnemyState.stationary, false, none, "stationary"⟩).1
      (Or.inl rfl) rfl (by with_unfolding_all decide)
  · exact (aggro_state_machine 140 100 ⟨EnemyState.aggroed, true, none, "homing"⟩).2.1
      rfl (by with_unfolding_all decide)
  · exact (aggro_state_machine 151 100 ⟨EnemyState.aggroed, true, none, "homing"⟩).2.2
      rfl (by with_unfolding_all decide)

/-- Helper: what `zoneFind` returns really is the list entry at the returned
index, and it carries the searched id. -/
theorem zoneFind_spec (zs : List GameZoneL) (zid : String) (i : ℕ) (z : GameZoneL)
    (h : zoneFind zs zid = some (i, z)) : zs.get? i = some z ∧ z.id = zid := by
  induction zs generalizing i z with
  | nil => simp [zoneFind] at h
  | cons w ws ih =>
    unfold zoneFind at h
    by_cases hw : w.id = zid
    · rw [if_pos hw, Option.some.injEq] at h
      simp only [Prod.mk.injEq] at h
      obtain ⟨h1, h2⟩ := h
      subst h1
      subst h2
      exact ⟨rfl, hw⟩
    · rw [if_neg hw, Option.map_eq_some'] at h
      obtain ⟨⟨a, b⟩, hq, hqi⟩ := h
      simp only [Prod.mk.injEq] at hqi
      obtain ⟨h1, h2⟩ := hqi
      subst h1
      subst h2
      obtain ⟨hget, hid⟩ := ih a b hq
      exact ⟨by simpa using hget, hid⟩

/-- C8: `loadZone` with an id that matches no catalog zone, or only zones
that are locked, throws nothing (it is a total function) and leaves the
entire manager state — current zone, active enemies, active props, boss
state and every unlock flag — unchanged (the warning log is external). -/
theorem loadZone_invalid_noop (E : Externals) (st : EncounterState) (zoneId : String)
    (h : ∀ z ∈ st.zones, z.id = zoneId → z.isUnlocked = false) :
    loadZone E st zoneId = st := by
  unfold loadZone
  cases hz : zoneFind st.zones zoneId with
  | none => rfl
  | some p =>
    obtain ⟨i, z⟩ := p
    obtain ⟨hget, hid⟩ := zoneFind_spec st.zones zoneId i z hz
    have hmem : z ∈ st.zones := by
      have := List.get?_eq_some.mp hget
      obtain ⟨hlt, hg⟩ := this
      exact hg ▸ List.get_mem st.zones i hlt
    have hlock := h z hmem hid
    simp [hlock]

/-- Witness for C8: loading the locked `desert-outpost` zone from the
initial manager state changes nothing. -/
theorem loadZone_invalid_noop_witness :
    loadZone witnessExternals initEncounterState "desert-outpost" = initEncounterState :=
  loadZone_invalid_noop witnessExternals initEncounterState "desert-outpost"
    (by with_unfolding_all decide)

/-- Helper: `enterNextPhase` advances the phase index by exactly one and
never touches the config. -/
theorem enterNextPhase_phase (now : ℚ) (b : BossState) :
    (enterNextPhase now b).currentPhase = b.currentPhase + 1
    ∧ (enterNextPhase now b).config = b.config := by
  unfold enterNextPhase
  dsimp only
  split
  · split
    · exact ⟨rfl, rfl⟩
    · split
      · exact ⟨rfl, rfl⟩
      · exact ⟨rfl, rfl⟩
  · exact ⟨rfl, rfl⟩

/-- Helper: one phase check moves the index up by zero or one, keeps the
config, and keeps the index strictly inside the phase list if it was. -/
theorem checkPhaseTransition_phase (now : ℚ) (b : BossState) :
    b.currentPhase ≤ (checkPhaseTransition now b).currentPhase
    ∧ (checkPhaseTransition now b).currentPhase ≤ b.currentPhase + 1
    ∧ (checkPhaseTransition now b).config = b.config
    ∧ (b.currentPhase + 1 ≤ b.config.phases.length →
        (checkPhaseTransition now b).currentPhase + 1 ≤ b.config.phases.length) := by
  unfold checkPhaseTransition
  split
  · rename_i hlt
    dsimp only
    split
    · obtain ⟨h1, h2⟩ := enterNextPhase_phase now b
      rw [h1, h2]
      exact ⟨Nat.le_succ _, le_refl _, rfl, fun _ => hlt⟩
    · exact ⟨le_refl _, Nat.le_succ _, rfl, fun hh => hh⟩
  · exact ⟨le_refl _, Nat.le_succ _, rfl, fun hh => hh⟩

/-- Helper: each movement pattern routine never touches the phase index or
the config. -/
theorem updateCircleMovement_phase (E : Externals) (dt : ℚ) (b : BossState) :
    (updateCircleMovement E dt b).currentPhase = b.currentPhase
    ∧ (updateCircleMovement E dt b).config = b.config := by
  unfold updateCircleMovement
  dsimp only
  split <;> exact ⟨rfl, rfl⟩

/-- Helper: chase movement preserves the phase index and config. -/
theorem updateChaseMovement_phase (E : Externals) (dt : ℚ) (p : Vec2) (ag : Bool)
    (b : BossState) :
    (updateChaseMovement E dt p ag b).currentPhase = b.currentPhase
    ∧ (updateChaseMovement E dt p ag b).config = b.config := by
  unfold updateChaseMovement
  dsimp only
  split <;> exact ⟨rfl, rfl⟩

/-- Helper: berserker movement preserves the phase index and config. -/
theorem updateBerserkerMovement_phase (E : Externals) (R : Rands) (dt : ℚ) (p : Vec2)
    (b : BossState) :
    (updateBerserkerMovement E R dt p b).currentPhase = b.currentPhase
    ∧ (updateBerserkerMovement E R dt p b).config = b.config := by
  unfold updateBerserkerMovement
  dsimp only
  split <;> exact ⟨rfl, rfl⟩

/-- Helper: swimming movement preserves the phase index and config. -/
theorem updateSwimmingMovement_phase (E : Externals) (R : Rands) (dt : ℚ) (p : Vec2)
    (ag : Bool) (b : BossState) :
    (updateSwimmingMovement E R dt p ag b).currentPhase = b.currentPhase
    ∧ (updateSwimmingMovement E R dt p ag b).config = b.config := by
  unfold updateSwimmingMovement
  dsimp only
  split
  · split <;> exact ⟨rfl, rfl⟩
  · exact ⟨rfl, rfl⟩

/-- Helper: frenzy movement preserves the phase index and config. -/
theorem updateFrenzyMovement_phase (E : Externals) (now dt : ℚ) (p : Vec2)
    (b : BossState) :
    (updateFrenzyMovement E now dt p b).currentPhase = b.currentPhase
    ∧ (updateFrenzyMovement E now dt p b).config = b.config := ⟨rfl, rfl⟩

/-- Helper: boss movement dispatch never touches the phase index or the
config. -/
theorem updateBossMovement_phase (E : Externals) (R : Rands) (now dt : ℚ)
    (p : Vec2) (b : BossState) :
    (updateBossMovement E R now dt p b).currentPhase = b.currentPhase
    ∧ (updateBossMovement E R now dt p b).config = b.config := by
  unfold updateBossMovement
  split
  · exact ⟨rfl, rfl⟩
  · split
    · exact ⟨rfl, rfl⟩
    · dsimp only
      split_ifs <;>
        first
          | exact ⟨rfl, rfl⟩
          | exact updateCircleMovement_phase E dt b
          | exact updateChaseMovement_phase E dt p false b
          | exact updateChaseMovement_phase E dt p true b
          | exact updateBerserkerMovement_phase E R dt p b
          | exact updateSwimmingMovement_phase E R dt p false b
          | exact updateSwimmingMovement_phase E R dt p true b

/-- Helper: dispatching an attack string never touches the phase index or
the config. -/
theorem executeAttack_phase (a : String) (p : Vec2) (b : BossState) :
    (executeAttack a p b).1.currentPhase = b.currentPhase
    ∧ (executeAttack a p b).1.config = b.config := by
  unfold executeAttack chargeStart
  split_ifs <;> exact ⟨rfl, rfl⟩

/-- Helper: attack selection and execution never touch the phase index or
the config. -/
theorem updateBossAttacks_phase (now rA : ℚ) (p : Vec2) (b : BossState) :
    (updateBossAttacks now rA p b).1.currentPhase = b.currentPhase
    ∧ (updateBossAttacks now rA p b).1.config = b.config := by
  unfold updateBossAttacks
  split
  · exact ⟨rfl, rfl⟩
  · split
    · exact ⟨rfl, rfl⟩
    · dsimp only
      split
      · exact ⟨rfl, rfl⟩
      · exact executeAttack_phase _ p b

/-- Helper: writing the `Enemy`-base fields back cannot touch the phase
index or the config. -/
theorem setBossCore_phase (b : BossState) (c : EnemyCore) :
    (setBossCore b c).currentPhase = b.currentPhase
    ∧ (setBossCore b c).config = b.config :=
  ⟨rfl, rfl⟩

/-- Helper: a full boss tick changes the phase index and config exactly as
its phase check does. -/
theorem bossUpdate_phase (E : Externals) (R : Rands) (now dt : ℚ) (p : Vec2)
    (b : BossState) :
    (bossUpdate E R now dt p b).currentPhase = (checkPhaseTransition now b).currentPhase
    ∧ (bossUpdate E R now dt p b).config = (checkPhaseTransition now b).config := by
  have hm := updateBossMovement_phase E R now dt p (checkPhaseTransition now b)
  have ha := updateBossAttacks_phase now R.attack p
    (updateBossMovement E R now dt p (checkPhaseTransition now b))
  have hs := setBossCore_phase
    (updateBossAttacks now R.attack p
      (updateBossMovement E R now dt p (checkPhaseTransition now b))).1
    (E.enemyUpdate dt p (bossCore
      (updateBossAttacks now R.attack p
        (updateBossMovement E R now dt p (checkPhaseTransition now b))).1))
  unfold bossUpdate
  dsimp only
  exact ⟨by rw [hs.1, ha.1, hm.1], by rw [hs.2, ha.2, hm.2]⟩

/-- Helper: every boss step — a full tick, a damage intake or a bare phase
check — moves the phase index up by zero or one, keeps the config, and keeps
the index strictly inside the phase list if it was. -/
theorem applyBossOp_phase (E : Externals) (op : BossOp) (b : BossState) :
    b.currentPhase ≤ (applyBossOp E op b).currentPhase
    ∧ (applyBossOp E op b).currentPhase ≤ b.currentPhase + 1
    ∧ (applyBossOp E op b).config = b.config
    ∧ (b.currentPhase + 1 ≤ b.config.phases.length →
        (applyBossOp E op b).currentPhase + 1 ≤ b.config.phases.length) := by
  cases op with
  | tick R now dt p =>
    obtain ⟨c1, c2, c3, c4⟩ := checkPhaseTransition_phase now b
    obtain ⟨h1, h2⟩ := bossUpdate_phase E R now dt p b
    simp only [applyBossOp]
    rw [h1, h2]
    exact ⟨c1, c2, c3, c4⟩
  | damage amt =>
    exact ⟨le_refl _, Nat.le_succ _, rfl, fun hh => hh⟩
  | phaseCheck now =>
    exact checkPhaseTransition_phase now b

/-- Helper: over any sequence of boss steps the phase index never decreases,
the config never changes, and the index stays strictly inside the phase
list if it started there. -/
theorem runBossOps_phase (E : Externals) (ops : List BossOp) :
    ∀ b : BossState,
      b.currentPhase ≤ (runBossOps E ops b).currentPhase
      ∧ (runBossOps E ops b).config = b.config
      ∧ (b.currentPhase + 1 ≤ b.config.phases.length →
          (runBossOps E ops b).currentPhase + 1 ≤ b.config.phases.length) := by
  induction ops with
  | nil => exact fun b => ⟨le_refl _, rfl, fun hh => hh⟩
  | cons op ops ih =>
    intro b
    have hstep := applyBossOp_phase E op b
    have hrest := ih (applyBossOp E op b)
    have hrun : runBossOps E (op :: ops) b = runBossOps E ops (applyBossOp E op b) := rfl
    rw [hrun]
    refine ⟨le_trans hstep.1 hrest.1, hrest.2.1.trans hstep.2.2.1, ?_⟩
    intro hh
    have h1 : (applyBossOp E op b).currentPhase + 1
        ≤ (applyBossOp E op b).config.phases.length := by
      rw [hstep.2.2.1]
      exact hstep.2.2.2 hh
    have h2 := hrest.2.2 h1
    rw [hstep.2.2.1] at h2
    exact h2

/-- C2: for a boss whose phase list has length `n ≥ 1` and whose phase index
is within bounds, across any sequence of update / damage / phase-check steps
(no reset) the phase index never decreases and never exceeds `n - 1`; and
every single phase-transition check advances the index by at most one, no
matter how far health has dropped. -/
theorem boss_phase_monotone_bounded (E : Externals) (ops : List BossOp) (b : BossState)
    (hlen : 1 ≤ b.config.phases.length)
    (hcp : b.currentPhase ≤ b.config.phases.length - 1) :
    b.currentPhase ≤ (runBossOps E ops b).currentPhase
    ∧ (runBossOps E ops b).currentPhase ≤ b.config.phases.length - 1
    ∧ (∀ (now : ℚ) (c : BossState),
        (checkPhaseTransition now c).currentPhase ≤ c.currentPhase + 1) := by
  obtain ⟨h1, h2, h3⟩ := runBossOps_phase E ops b
  refine ⟨h1, ?_, fun now c => (checkPhaseTransition_phase now c).2.1⟩
  have hin : b.currentPhase + 1 ≤ b.config.phases.length := by omega
  have := h3 hin
  omega

/-- Witness for C2: the spawned tutorial boss (2 phases) hit for 200 damage
keeps a monotone, in-bounds phase index. -/
theorem boss_phase_monotone_bounded_witness :
    tutorialBossSpawned.currentPhase
      ≤ (runBossOps witnessExternals [BossOp.damage 200] tutorialBossSpawned).currentPhase
    ∧ (runBossOps witnessExternals [BossOp.damage 200] tutorialBossSpawned).currentPhase
      ≤ tutorialBossSpawned.config.phases.length - 1 := by
  have h := boss_phase_monotone_bounded witnessExternals [BossOp.damage 200]
    tutorialBossSpawned (by with_unfolding_all decide) (by with_unfolding_all decide)
  exact ⟨h.1, h.2.1⟩

set_option maxRecDepth 40000 in
/-- C5 (code bug): the cooldown gate, the uniform pick, the empty-list no-op
and the `lastAttackTime := now` update all behave as claimed, but the picked
ability id never dispatches to an attack routine for the shipped catalog:
on the eligible tutorial boss with draw 0 the pick is `"summon-swarm"`,
`executeAttack` matches no switch case for it (the switch compares against
the underscored `BossAttack` enum values), the boss state is returned with
only `lastAttackTime` changed — and indeed *every* ability id of every phase
of every shipped zone matches no case, while the underscored ids do
dispatch. -/
theorem bossAttack_dispatch_catalog_gap :
    (updateBossAttacks 2000 0 ⟨0, 0⟩ tutorialBossSpawned).2
      = some ("summon-swarm", none)
    ∧ (updateBossAttacks 2000 0 ⟨0, 0⟩ tutorialBossSpawned).1
      = { tutorialBossSpawned with lastAttackTime := 2000 }
    ∧ (updateBossAttacks 0 0 ⟨0, 0⟩
        { tutorialBossSpawned with lastAttackTime := -1000 }).2 = none
    ∧ (gameZones.all fun z =>
        match z.boss with
        | some bc => bc.phases.all fun ph =>
            ph.abilities.all fun a => (executeAttack a ⟨0, 0⟩ tutorialBossSpawned).2.isNone
        | none => true) = true
    ∧ (executeAttack "charge_attack" ⟨0, 0⟩ tutorialBossSpawned).2
        = some BossAttack.chargeAttack := by
  refine ⟨?_, ?_, ?_, ?_, ?_⟩ <;> with_unfolding_all decide

end Brainrot
